import Mathlib

/-!
Verification of the Ollama backend adapter (`ollama_adapter.py`).

The adapter translates a generic chat-completion request into the Ollama wire
format, performs one HTTP call, and maps the JSON response back into a generic
response model. We embed the adapter's pure mapping logic shallowly: Python
dictionaries of parsed JSON become an inductive `Json` type, fallible Python
operations (dict indexing, attribute access, pydantic validation) return
`Except PyErr`, and the HTTP layer is modelled by the response the transport
hands back.
-/

namespace OllamaSpec

/-- Parsed JSON values as Python would hold them after `response.json()`.
`null` doubles as Python `None`. Objects are association lists in insertion
order with distinct keys in practice; lookup takes the first match. -/
inductive Json where
  | null
  | bool (b : Bool)
  | num (n : Int)
  | str (s : String)
  | arr (elems : List Json)
  | obj (fields : List (String × Json))

/-- Python exceptions the adapter's mapping code can raise. -/
inductive PyErr where
  | keyError (key : String)
  | typeError (msg : String)
  | attributeError (attr : String)
  | validationError
  | httpStatusError (status : Nat)
  | jsonDecodeError

/-- First-match lookup in a JSON object's field list (Python dict lookup). -/
def lookupField : List (String × Json) → String → Option Json
  | [], _ => none
  | (k, v) :: rest, key => if k == key then some v else lookupField rest key

/-- Python `d[key]` on a parsed-JSON value: `KeyError` when the key is absent,
`TypeError` when the value is not a dict. -/
def Json.index (j : Json) (key : String) : Except PyErr Json :=
  match j with
  | .obj fields =>
    match lookupField fields key with
    | some v => .ok v
    | none => .error (.keyError key)
  | _ => .error (.typeError "not subscriptable")

/-- Python `d.get(key, default)`: `AttributeError` when the receiver is not a
dict, otherwise the stored value or the default. -/
def Json.get (j : Json) (key : String) (dflt : Json) : Except PyErr Json :=
  match j with
  | .obj fields => .ok ((lookupField fields key).getD dflt)
  | _ => .error (.attributeError "get")

/-- Python truthiness of a parsed-JSON value: `None`, `False`, `0`, `""`, `[]`
and `{}` are falsy, everything else truthy. -/
def Json.truthy : Json → Bool
  | .null => false
  | .bool b => b
  | .num n => n != 0
  | .str s => s != ""
  | .arr elems => !elems.isEmpty
  | .obj fields => !fields.isEmpty

/-- Pydantic validation of a `str` field: accepts exactly strings. -/
def Json.asString : Json → Except PyErr String
  | .str s => .ok s
  | _ => .error .validationError

/-- Pydantic validation of an `int` field: accepts exactly integers. -/
def Json.asInt : Json → Except PyErr Int
  | .num n => .ok n
  | _ => .error .validationError

/-- Python `a + b` on two looked-up JSON values: integer addition, `TypeError`
on any other operand combination the adapter could meet. -/
def jsonAdd : Json → Json → Except PyErr Json
  | .num a, .num b => .ok (.num (a + b))
  | _, _ => .error (.typeError "unsupported operand")

/-- Left-to-right effectful map, as a Python `for` loop appending to a list:
the first raised exception aborts the loop. -/
def mapExcept (f : α → Except PyErr β) : List α → Except PyErr (List β)
  | [] => .ok []
  | a :: rest => do
    let b ← f a
    let bs ← mapExcept f rest
    pure (b :: bs)

/-- Content parts of a chat message, the tagged form of the source's
`LLMChatTextContent` / `LLMChatImageContent` / `LLMToolCallContent` /
`LLMToolResultContent` classes. Modelled from the spec and from the fields the
adapter reads: text parts carry `text`, image parts `media_id`, tool-call
parts `name` + `parameters`, tool-result parts `content` + `name`. -/
inductive LLMContent where
  | text (text : String)
  | image (media_id : String)
  | toolCall (name : String) (parameters : Json)
  | toolResult (content : String) (name : String)

/-- The response-side `Function` record: a tool-call name and its arguments. -/
structure Function where
  name : String
  arguments : Json

/-- The response-side structured `ToolCall` record. -/
structure ToolCall where
  function : Function

/-- Token-usage accounting of one chat exchange. -/
structure Usage where
  prompt_tokens : Int
  completion_tokens : Int
  total_tokens : Int

/-- The single output message of a chat response. -/
structure Message where
  content : List LLMContent
  role : String
  finish_reason : String
  tool_calls : Option (List ToolCall)

/-- The generic chat response the adapter returns. -/
structure LLMChatResponse where
  model : String
  message : Message
  usage : Usage

/-- Embedding of `convert_llm_response`: one text part from
`message.content` (default `""`), then, when `message.tool_calls` is truthy,
one tool-call part per entry appended in order. Every dict access is the
source's, in the source's order; repeated indexing of the same key on the same
dict is collapsed to its (identical) first result. -/
def convert_llm_response (response_data : Json) : Except PyErr (List LLMContent) := do
  let message ← response_data.index "message"
  let contentJ ← message.get "content" (.str "")
  let text ← contentJ.asString
  let content : List LLMContent := [.text text]
  let tc ← message.get "tool_calls" .null
  if tc.truthy then
    match tc with
    | .arr tool_calls => do
      let calls ← mapExcept (fun tool_call => do
        let f ← tool_call.index "function"
        let nameJ ← f.index "name"
        let name ← nameJ.asString
        let args ← f.get "arguments" .null
        pure (LLMContent.toolCall name args)) tool_calls
      pure (content ++ calls)
    | _ => .error (.typeError "not iterable")
  else
    pure content

/-- Embedding of `resolve_tool_calls_form_content`. The source's truthy branch
builds a local `calls` list but reaches the end of the function body without a
`return` statement, so Python yields `None` on that path too; the embedding
reproduces that fall-through, while keeping the exceptions the loop can
raise. -/
def resolve_tool_calls_form_content (response_data : Json) :
    Except PyErr (Option (List ToolCall)) := do
  let message ← response_data.index "message"
  let tc ← message.get "tool_calls" .null
  if tc.truthy then
    match tc with
    | .arr tool_calls => do
      let _calls ← mapExcept (fun call => do
        let f ← call.index "function"
        let nameJ ← f.index "name"
        let name ← nameJ.asString
        let args ← f.get "arguments" .null
        pure (ToolCall.mk (Function.mk name args))) tool_calls
      pure none
    | _ => .error (.typeError "not iterable")
  else
    pure none

/-- Embedding of the `Usage(...)` construction inside `chat`: Python evaluates
the four subscript expressions left to right before any pydantic validation
runs, so a missing key raises `KeyError` first; then `+` runs, then the three
`int` fields validate. -/
def usagePart (response_data : Json) : Except PyErr Usage := do
  let promptJ ← response_data.index "prompt_eval_count"
  let evalJ ← response_data.index "eval_count"
  let promptJ2 ← response_data.index "prompt_eval_count"
  let evalJ2 ← response_data.index "eval_count"
  let totalJ ← jsonAdd promptJ2 evalJ2
  let prompt ← promptJ.asInt
  let completion ← evalJ.asInt
  let total ← totalJ.asInt
  pure (Usage.mk prompt completion total)

/-- Embedding of the `LLMChatResponse(...)` construction at the end of `chat`:
the `Message` argument is evaluated first (content conversion, then structured
tool-call resolution), then the `Usage` argument. -/
def mapResponse (model : String) (response_data : Json) :
    Except PyErr LLMChatResponse := do
  let content ← convert_llm_response response_data
  let tool_calls ← resolve_tool_calls_form_content response_data
  let usage ← usagePart response_data
  pure (LLMChatResponse.mk model
    (Message.mk content "assistant" "stop" tool_calls) usage)

/-- One input chat message: a role and an ordered sequence of content parts. -/
structure LLMChatMessage where
  role : String
  content : List LLMContent

/-- The generic chat request. Generation parameters are optional; `none` is
Python `None`. `tools` is the (possibly empty) tool-definition list, already
in its dumped JSON form. -/
structure LLMChatRequest where
  model : String
  messages : List LLMChatMessage
  temperature : Option Json
  top_p : Option Json
  max_tokens : Option Json
  stop : Option Json
  tools : List Json

/-- The adapter's frozen configuration: the backend base URL. -/
structure OllamaConfig where
  api_base : String

/-- Default configuration value from the source. -/
def defaultConfig : OllamaConfig := OllamaConfig.mk "http://localhost:11434"

/-- Chat endpoint the adapter POSTs to. -/
def chatUrl (config : OllamaConfig) : String := config.api_base ++ "/api/chat"

/-- Tag-listing endpoint model discovery GETs. -/
def tagsUrl (config : OllamaConfig) : String := config.api_base ++ "/api/tags"

/-- One entry of the backend `messages` array as the adapter builds it:
always `role` and `content`; tool messages add `name`; the intended `images`
field (never successfully attached by the source, see `processParts`). -/
structure OllamaMsg where
  role : String
  content : String
  name : Option String
  images : Option (List String)

/-- Modelled from the spec: the media manager resolves a media identifier to
its base64-encoded payload (the `get_media(id).get_base64()` round trip,
awaited by the adapter's private event loop). Modelled as a total function
supplied by the environment. -/
def resolve_media_ids (media_ids : List String) (media_manager : String → String) :
    List String :=
  media_ids.map media_manager

/-- The tool-role branch of the message loop reads `part.content` and
`part.name` from each part. Modelled from the spec: only tool-result parts
carry both attributes, any other part raises `AttributeError`. -/
def toolEntry : LLMContent → Except PyErr OllamaMsg
  | .toolResult c n => .ok (OllamaMsg.mk "tool" c (some n) none)
  | _ => .error (.attributeError "content")

/-- Embedding of the non-tool branch of the message loop, faithful to the
source's indentation: the message-building block sits INSIDE the `for part`
loop, so every part that is not a tool call appends one `{role, content}` dict
carrying the text accumulated so far; and when `images` is non-empty the
source executes `messages["images"] = ...`, a string-key assignment into the
list `messages`, which raises `TypeError` (after first resolving the media
ids on the event loop). -/
def processParts (media_manager : String → String) (role : String) :
    List LLMContent → String → List String → List OllamaMsg →
    Except PyErr (List OllamaMsg)
  | [], _, _, acc => .ok acc
  | part :: rest, text_content, images, acc =>
    match part with
    | .toolCall _ _ => processParts media_manager role rest text_content images acc
    | .text t =>
      let text_content := text_content ++ t
      if images.isEmpty then
        processParts media_manager role rest text_content images
          (acc ++ [OllamaMsg.mk role text_content none none])
      else
        let _resolved := resolve_media_ids images media_manager
        .error (.typeError "list indices must be integers")
    | .image media_id =>
      let images := images ++ [media_id]
      let _resolved := resolve_media_ids images media_manager
      .error (.typeError "list indices must be integers")
    | .toolResult _ _ =>
      if images.isEmpty then
        processParts media_manager role rest text_content images
          (acc ++ [OllamaMsg.mk role text_content none none])
      else
        let _resolved := resolve_media_ids images media_manager
        .error (.typeError "list indices must be integers")

/-- Embedding of the `for msg in req.messages` loop of `chat`, threading the
growing backend `messages` list: tool-role messages extend it with one entry
per part, other messages run the (buggy) per-part block. -/
def chatMessages (media_manager : String → String) :
    List LLMChatMessage → List OllamaMsg → Except PyErr (List OllamaMsg)
  | [], acc => .ok acc
  | msg :: rest, acc =>
    if msg.role == "tool" then do
      let entries ← mapExcept toolEntry msg.content
      chatMessages media_manager rest (acc ++ entries)
    else do
      let acc2 ← processParts media_manager msg.role msg.content "" [] acc
      chatMessages media_manager rest acc2

/-- The whole message-mapping step of `chat`, starting from an empty list. -/
def chat_map_messages (media_manager : String → String)
    (msgs : List LLMChatMessage) : Except PyErr (List OllamaMsg) :=
  chatMessages media_manager msgs []

/-- Serialization of one built backend message entry. -/
def OllamaMsg.toJson (m : OllamaMsg) : Json :=
  .obj ([("role", Json.str m.role), ("content", Json.str m.content)]
    ++ (match m.name with
        | some n => [("name", Json.str n)]
        | none => [])
    ++ (match m.images with
        | some imgs => [("images", Json.arr (imgs.map Json.str))]
        | none => []))

/-- Python `None` for an unset optional parameter, the value itself otherwise. -/
def optToJson : Option Json → Json
  | some v => v
  | none => .null

/-- The `data` dict literal of `chat` before the None-stripping comprehensions:
top-level `model`, `messages`, `stream` and the nested `options` dict holding
`temperature`, `top_p`, `num_predict`, `stop` and `tools` (the tools entry is
`None` unless `req.tools` is truthy, i.e. non-empty). -/
def dataRaw (req : LLMChatRequest) (msgs : List OllamaMsg) :
    List (String × Json) :=
  [("model", Json.str req.model),
   ("messages", Json.arr (msgs.map OllamaMsg.toJson)),
   ("stream", Json.bool false),
   ("options", Json.obj
     [("temperature", optToJson req.temperature),
      ("top_p", optToJson req.top_p),
      ("num_predict", optToJson req.max_tokens),
      ("stop", optToJson req.stop),
      ("tools", if req.tools.isEmpty then Json.null else Json.arr req.tools)])]

/-- The None-stripping dict comprehension `{k: v for k, v in d.items() if v is
not None}`. -/
def dropNullFields (fields : List (String × Json)) : List (String × Json) :=
  fields.filter (fun kv =>
    match kv.2 with
    | Json.null => false
    | _ => true)

/-- Embedding of the payload cleanup in `chat`: strip `None` values at the top
level, then replace the `options` entry (always present, a dict is never
`None`) by its own stripped version. -/
def serializedPayload (req : LLMChatRequest) (msgs : List OllamaMsg) :
    List (String × Json) :=
  (dropNullFields (dataRaw req msgs)).map (fun kv =>
    if kv.1 == "options" then
      (kv.1, match kv.2 with
             | Json.obj fields => Json.obj (dropNullFields fields)
             | v => v)
    else kv)

/-- The HTTP response the transport hands back to the adapter: status code,
raw body text, and the parsed JSON body when the body parses. -/
structure HttpResponse where
  status : Nat
  text : String
  json : Option Json

/-- Semantics of `requests.Response.raise_for_status`: it raises `HTTPError`
exactly for 4xx client errors and 5xx server errors; 1xx/3xx statuses pass. -/
def raise_for_status (status : Nat) : Except PyErr Unit :=
  if 400 ≤ status ∧ status < 600 then .error (.httpStatusError status) else .ok ()

/-- Outcome of the chat call's response handling: a mapped response; an
exception raised inside the `try` block, which first prints the raw body for
diagnostics and then re-raises; or an exception raised later during response
mapping (outside the `try`). -/
inductive ChatOutcome where
  | ok (resp : LLMChatResponse)
  | raisedWithDiagnostics (apiResponseText : String) (e : PyErr)
  | raised (e : PyErr)

/-- Embedding of `chat` from the POST's return onward: `raise_for_status` and
`response.json()` run inside a `try` whose handler prints `response.text` and
re-raises; the surviving JSON is then mapped to an `LLMChatResponse`. -/
def chatHandleResponse (model : String) (r : HttpResponse) : ChatOutcome :=
  match raise_for_status r.status with
  | .error e => .raisedWithDiagnostics r.text e
  | .ok _ =>
    match r.json with
    | none => .raisedWithDiagnostics r.text .jsonDecodeError
    | some response_data =>
      match mapResponse model response_data with
      | .ok resp => .ok resp
      | .error e => .raised e

/-- Embedding of `auto_detect_models` from the GET's return onward: aiohttp's
`raise_for_status` raises `ClientResponseError` exactly when `status >= 400`;
then the body is parsed and `[tag["name"] for tag in response_data["models"]]`
is returned. The list-comprehension values are returned unvalidated, hence
`List Json`. -/
def auto_detect_models (r : HttpResponse) : Except PyErr (List Json) := do
  if 400 ≤ r.status then
    throw (.httpStatusError r.status)
  else
    match r.json with
    | none => throw .jsonDecodeError
    | some response_data => do
      let models ← response_data.index "models"
      match models with
      | .arr tags => mapExcept (fun tag => tag.index "name") tags
      | _ => .error (.typeError "not iterable")

@[simp]
theorem ok_bind (a : α) (f : α → Except PyErr β) :
    (Except.ok a >>= f : Except PyErr β) = f a := rfl

@[simp]
theorem error_bind (e : PyErr) (f : α → Except PyErr β) :
    (Except.error e >>= f : Except PyErr β) = .error e := rfl

/-- C1: the output content sequence for a backend response with k tool calls
is one text part followed by the k tool-call parts, as claimed; but the
structured tool-calls field comes out `none`, not the k entries, because the
truthy branch of `resolve_tool_calls_form_content` builds its `calls` list and
then falls off the end of the function without returning it. Evaluated here at
a response with one tool call. -/
theorem c1_structured_tool_calls_lost :
    mapResponse "m"
      (Json.obj
        [("message", Json.obj
            [("content", Json.str "hi"),
             ("tool_calls", Json.arr
               [Json.obj [("function", Json.obj
                  [("name", Json.str "f"),
                   ("arguments", Json.obj [("x", Json.num 1)])])]])]),
         ("prompt_eval_count", Json.num 1),
         ("eval_count", Json.num 2)])
    = .ok (LLMChatResponse.mk "m"
        (Message.mk
          [LLMContent.text "hi",
           LLMContent.toolCall "f" (Json.obj [("x", Json.num 1)])]
          "assistant" "stop" none)
        (Usage.mk 1 2 3)) := rfl

/-- C2: a single text-only input message with two text parts is mapped to TWO
backend entries, not one, because the source builds and appends the backend
message inside the per-part loop; the claimed one-entry-per-message shape
fails. -/
theorem c2_entry_per_part :
    chat_map_messages (fun _ => "")
      [LLMChatMessage.mk "user" [LLMContent.text "a", LLMContent.text "b"]]
    = .ok [OllamaMsg.mk "user" "a" none none,
           OllamaMsg.mk "user" "ab" none none] := rfl

/-- C3: an input message with empty content, and one whose only part is a
tool call, each produce NO backend entry at all — the per-part loop body never
runs (or is skipped by `continue`), so the message is silently dropped,
contradicting the claimed empty-text fallback entry. -/
theorem c3_empty_message_dropped :
    chat_map_messages (fun _ => "") [LLMChatMessage.mk "user" []] = .ok []
    ∧ chat_map_messages (fun _ => "")
        [LLMChatMessage.mk "user" [LLMContent.toolCall "f" Json.null]]
      = .ok [] := ⟨rfl, rfl⟩

/-- C4: a message with one image part makes the mapping step raise
`TypeError` — the source assigns the resolved base64 list to
`messages["images"]`, a string-keyed assignment into the LIST `messages`
instead of the dict `message` — so no `images` field is ever attached and the
chat mapping fails on any message with an image. -/
theorem c4_image_message_type_error :
    chat_map_messages (fun _ => "base64data")
      [LLMChatMessage.mk "user" [LLMContent.image "m1"]]
    = .error (PyErr.typeError "list indices must be integers") := rfl

theorem mapExcept_toolEntry (cns : List (String × String)) :
    mapExcept toolEntry (cns.map fun cn => LLMContent.toolResult cn.1 cn.2)
    = .ok (cns.map fun cn => OllamaMsg.mk "tool" cn.1 (some cn.2) none) := by
  induction cns with
  | nil => rfl
  | cons hd tl ih => simp [mapExcept, toolEntry, ih]

/-- C9: a tool-role message whose p parts are tool-result parts contributes
exactly p backend entries, in part order, each `{role:"tool", content, name}`,
appended to whatever was already mapped; the rest of the request is then
processed from that extended state. -/
theorem c9_tool_message_entries (media_manager : String → String)
    (pres : List OllamaMsg) (rest : List LLMChatMessage)
    (cns : List (String × String)) :
    chatMessages media_manager
      (LLMChatMessage.mk "tool" (cns.map fun cn => LLMContent.toolResult cn.1 cn.2)
        :: rest) pres
    = chatMessages media_manager rest
        (pres ++ cns.map fun cn => OllamaMsg.mk "tool" cn.1 (some cn.2) none) := by
  simp [chatMessages, mapExcept_toolEntry]

/-- C10: when the backend message's `tool_calls` key is absent, `null`, or an
empty list, the structured tool-calls field resolves to `None` (not an empty
list). -/
theorem c10_absent_tool_calls_give_none
    (rd : Json) (mfields : List (String × Json))
    (hmsg : rd.index "message" = .ok (.obj mfields))
    (hempty : lookupField mfields "tool_calls" = none ∨
              lookupField mfields "tool_calls" = some Json.null ∨
              lookupField mfields "tool_calls" = some (Json.arr [])) :
    resolve_tool_calls_form_content rd = .ok none := by
  unfold resolve_tool_calls_form_content
  rw [hmsg]
  rcases hempty with h | h | h <;> simp [Json.get, h, Json.truthy] <;> rfl

/-- Witness for C10 at a response whose message has no `tool_calls` key. -/
theorem c10_witness :
    resolve_tool_calls_form_content
      (Json.obj [("message", Json.obj [("content", Json.str "hi")])])
    = .ok none :=
  c10_absent_tool_calls_give_none _ [("content", Json.str "hi")] rfl (Or.inl rfl)

@[simp]
theorem pure_eq_ok (a : α) : (pure a : Except PyErr α) = .ok a := rfl

/-- C5: when both count fields are present (as integers) the mapped usage is
`⟨prompt_eval_count, eval_count, prompt_eval_count + eval_count⟩`; when either
is missing from the response object, the response mapping propagates a
`KeyError` instead of producing a response. -/
theorem c5_usage_mapping :
    (∀ (model : String) (rd : Json) (c : List LLMContent)
       (tc : Option (List ToolCall)) (p e : Int),
      convert_llm_response rd = .ok c →
      resolve_tool_calls_form_content rd = .ok tc →
      rd.index "prompt_eval_count" = .ok (.num p) →
      rd.index "eval_count" = .ok (.num e) →
      mapResponse model rd
        = .ok (LLMChatResponse.mk model (Message.mk c "assistant" "stop" tc)
            (Usage.mk p e (p + e)))) ∧
    (∀ (model : String) (fields : List (String × Json)) (c : List LLMContent)
       (tc : Option (List ToolCall)),
      convert_llm_response (.obj fields) = .ok c →
      resolve_tool_calls_form_content (.obj fields) = .ok tc →
      (lookupField fields "prompt_eval_count" = none ∨
       lookupField fields "eval_count" = none) →
      ∃ key, mapResponse model (.obj fields) = .error (.keyError key)) := by
  constructor
  · intro model rd c tc p e h1 h2 h3 h4
    simp [mapResponse, usagePart, h1, h2, h3, h4, jsonAdd, Json.asInt]
  · intro model fields c tc h1 h2 hmiss
    rcases hmiss with h | h
    · exact ⟨"prompt_eval_count",
        by simp [mapResponse, usagePart, h1, h2, Json.index, h]⟩
    · cases hp : lookupField fields "prompt_eval_count" with
      | none => exact ⟨"prompt_eval_count",
          by simp [mapResponse, usagePart, h1, h2, Json.index, hp]⟩
      | some v => exact ⟨"eval_count",
          by simp [mapResponse, usagePart, h1, h2, Json.index, hp, h]⟩

/-- Witness for C5: the spec's example (`prompt_eval_count=5, eval_count=10`)
maps to usage `⟨5, 10, 15⟩`, and dropping `prompt_eval_count` makes the
mapping fail with a `KeyError`. -/
theorem c5_witness :
    mapResponse "m"
      (Json.obj [("message", Json.obj [("content", Json.str "ok")]),
        ("prompt_eval_count", Json.num 5), ("eval_count", Json.num 10)])
    = .ok (LLMChatResponse.mk "m"
        (Message.mk [LLMContent.text "ok"] "assistant" "stop" none)
        (Usage.mk 5 10 15))
    ∧ ∃ key, mapResponse "m"
        (Json.obj [("message", Json.obj [("content", Json.str "ok")]),
          ("eval_count", Json.num 10)])
      = .error (.keyError key) := by
  constructor
  · exact c5_usage_mapping.1 "m" _ [LLMContent.text "ok"] none 5 10 rfl rfl rfl rfl
  · exact c5_usage_mapping.2 "m" _ [LLMContent.text "ok"] none rfl rfl (Or.inl rfl)

theorem mem_dropNullFields {l : List (String × Json)} {kv : String × Json}
    (h : kv ∈ dropNullFields l) : kv ∈ l ∧ kv.2 ≠ Json.null := by
  unfold dropNullFields at h
  rw [List.mem_filter] at h
  refine ⟨h.1, fun hnull => ?_⟩
  have h2 := h.2
  rw [hnull] at h2
  exact Bool.noConfusion h2

/-- C6: no key of the serialized payload, at the top level or inside the
`options` object, carries a null value; in particular an unset `max_tokens`
leaves no `num_predict` key inside `options`. -/
theorem c6_no_null_payload_fields
    (req : LLMChatRequest) (msgs : List OllamaMsg) (kv : String × Json)
    (hmem : kv ∈ serializedPayload req msgs) :
    kv.2 ≠ Json.null ∧
    (∀ fields, kv.1 = "options" → kv.2 = Json.obj fields →
      ∀ kv2 ∈ fields, kv2.2 ≠ Json.null ∧
        (req.max_tokens = none → kv2.1 ≠ "num_predict")) := by
  unfold serializedPayload at hmem
  rcases List.mem_map.mp hmem with ⟨kv0, h0, hf⟩
  obtain ⟨hraw, hnn⟩ := mem_dropNullFields h0
  simp only [dataRaw, List.mem_cons, List.not_mem_nil, or_false] at hraw
  rcases hraw with h | h | h | h <;> subst h <;> simp at hf <;> subst hf
  · exact ⟨fun h => Json.noConfusion h, fun fields hopt => by simp at hopt⟩
  · exact ⟨fun h => Json.noConfusion h, fun fields hopt => by simp at hopt⟩
  · exact ⟨fun h => Json.noConfusion h, fun fields hopt => by simp at hopt⟩
  · refine ⟨fun h => by simp at h, ?_⟩
    intro fields _ hobj kv2 hkv2
    simp only [Json.obj.injEq] at hobj
    subst hobj
    obtain ⟨hin, hnn2⟩ := mem_dropNullFields hkv2
    simp only [List.mem_cons, List.not_mem_nil, or_false] at hin
    rcases hin with h | h | h | h | h <;> subst h
    · exact ⟨hnn2, fun _ => by simp⟩
    · exact ⟨hnn2, fun _ => by simp⟩
    · refine ⟨hnn2, fun hmax => ?_⟩
      rw [hmax] at hnn2
      exact absurd rfl hnn2
    · exact ⟨hnn2, fun _ => by simp⟩
    · exact ⟨hnn2, fun _ => by simp⟩

/-- Witness for C6 at a request with `temperature` set, `max_tokens` unset:
the surviving `options` entry is non-null and is not `num_predict`. -/
theorem c6_witness :
    Json.num 1 ≠ Json.null ∧ ("temperature" : String) ≠ "num_predict" := by
  have h := c6_no_null_payload_fields
    (LLMChatRequest.mk "m" [] (some (Json.num 1)) none none none []) []
    ("options", Json.obj [("temperature", Json.num 1)])
    (List.Mem.tail _ (List.Mem.tail _ (List.Mem.tail _ (List.Mem.head _))))
  refine ⟨?_, ?_⟩
  · exact (h.2 [("temperature", Json.num 1)] rfl rfl
      ("temperature", Json.num 1) (List.Mem.head _)).1
  · exact (h.2 [("temperature", Json.num 1)] rfl rfl
      ("temperature", Json.num 1) (List.Mem.head _)).2 rfl

/-- C7 counterexample: a 304 response — non-2xx — with a well-formed JSON
body is NOT raised by `requests.raise_for_status` (which raises only for
4xx/5xx), so the chat call returns a full ChatResponse instead of surfacing
the body and re-raising, refuting the claim as stated for non-2xx statuses
outside 400..599. -/
theorem c7_counterexample :
    chatHandleResponse "m" (HttpResponse.mk 304 "not modified"
      (some (Json.obj [("message", Json.obj [("content", Json.str "hi")]),
        ("prompt_eval_count", Json.num 5), ("eval_count", Json.num 10)])))
    = ChatOutcome.ok (LLMChatResponse.mk "m"
        (Message.mk [LLMContent.text "hi"] "assistant" "stop" none)
        (Usage.mk 5 10 15)) := rfl

/-- C7 amended: for every chat HTTP response with a 4xx or 5xx status, the
operation surfaces the raw response body for diagnostics and re-raises the
transport error; no ChatResponse is produced and no retry happens. -/
theorem c7_http_error_reraised (model : String) (r : HttpResponse)
    (h4 : 400 ≤ r.status) (h6 : r.status < 600) :
    chatHandleResponse model r
    = ChatOutcome.raisedWithDiagnostics r.text (PyErr.httpStatusError r.status) := by
  unfold chatHandleResponse raise_for_status
  rw [if_pos ⟨h4, h6⟩]

/-- Witness for C7 at a 500 response with body `boom`. -/
theorem c7_witness :
    chatHandleResponse "m" (HttpResponse.mk 500 "boom" none)
    = ChatOutcome.raisedWithDiagnostics "boom" (PyErr.httpStatusError 500) :=
  c7_http_error_reraised "m" (HttpResponse.mk 500 "boom" none)
    (by decide) (by decide)

theorem mapExcept_of_forall₂ {f : Json → Except PyErr Json} {tags names : List Json}
    (h : List.Forall₂ (fun tag nm => f tag = Except.ok nm) tags names) :
    mapExcept f tags = .ok names := by
  induction h with
  | nil => rfl
  | cons h1 _ ih => simp [mapExcept, h1, ih]

/-- C8 counterexample: model discovery on a 304 — non-2xx — response whose
body is `{"models":[{"name":"llama3"}]}` returns `["llama3"]` instead of
raising, because aiohttp's `raise_for_status` raises only for `status ≥ 400`;
this refutes the claim as stated for non-2xx statuses below 400. -/
theorem c8_counterexample :
    auto_detect_models (HttpResponse.mk 304 ""
      (some (Json.obj [("models", Json.arr [Json.obj [("name", Json.str "llama3")]])])))
    = .ok [Json.str "llama3"] := rfl

/-- C8 amended: model discovery raises the transport error (and returns no
partial result) exactly on `status ≥ 400`; on any other status it returns the
`name` field of each entry of the `models` array, in order. -/
theorem c8_model_discovery :
    (∀ r : HttpResponse, 400 ≤ r.status →
      auto_detect_models r = .error (.httpStatusError r.status)) ∧
    (∀ (r : HttpResponse) (rd : Json) (tags names : List Json),
      r.status < 400 → r.json = some rd →
      rd.index "models" = .ok (.arr tags) →
      List.Forall₂ (fun tag nm => tag.index "name" = Except.ok nm) tags names →
      auto_detect_models r = .ok names) := by
  constructor
  · intro r h
    simp [auto_detect_models, h]
    rfl
  · intro r rd tags names hlt hjson hmodels hf
    have hnle : ¬ (400 ≤ r.status) := by omega
    simp [auto_detect_models, hnle, hjson, hmodels, mapExcept_of_forall₂ hf]

/-- Witness for C8: the spec's example body on a 200 response yields
`["llama3"]`, and a 404 raises the transport error. -/
theorem c8_witness :
    auto_detect_models (HttpResponse.mk 200 ""
      (some (Json.obj [("models", Json.arr [Json.obj [("name", Json.str "llama3")]])])))
      = .ok [Json.str "llama3"]
    ∧ auto_detect_models (HttpResponse.mk 404 "not found" none)
      = .error (PyErr.httpStatusError 404) := by
  constructor
  · exact c8_model_discovery.2 _ _ _ _ (by decide) rfl rfl
      (List.Forall₂.cons rfl List.Forall₂.nil)
  · exact c8_model_discovery.1 _ (by decide)

end OllamaSpec
